import Mathlib

/-!
Verification of the Tableau MCP server (`tableau_mcp_server.py`).

The development shallowly embeds the server's data model and operations:
Python strings become `String`, optional values become `Option String`
(Python truthiness is modelled explicitly), XML trees become a mutual
inductive `XmlElem`/`XmlList`, HTTP responses become inductive response
types, and Python exceptions become `Except PyExc`.  Stateful methods
thread an explicit `SessionState`.
-/

/-! ## Python string primitives -/

/-- Python `str.lower()` (per-character lowering of the code points). -/
def pyLower (s : String) : String := String.mk (s.data.map Char.toLower)

/-- Membership of one character list inside another, in order and contiguous. -/
def charsIn (needle : List Char) : List Char → Bool
  | [] => needle.isEmpty
  | x :: xs => needle.isPrefixOf (x :: xs) || charsIn needle xs

/-- Python `needle in hay` on strings (contiguous substring test). -/
def strIn (needle hay : String) : Bool := charsIn needle.data hay.data

/-- Python truthiness of an optional string: `None` and `""` are falsy. -/
def isFalsyOpt : Option String → Bool
  | none => true
  | some s => s == ""

/-- Python f-string rendering of an optional string (`None` prints as "None"). -/
def pyShowOpt : Option String → String
  | none => "None"
  | some s => s

/-! ## XML documents (the fragment of `xml.etree.ElementTree` the server uses) -/

mutual
/-- An XML element: tag, attribute list, child elements. -/
inductive XmlElem where
  | mk (tag : String) (attrs : List (String × String)) (children : XmlList)
/-- A list of XML elements (spelled out so that recursion stays structural). -/
inductive XmlList where
  | nil
  | cons (e : XmlElem) (rest : XmlList)
end

def XmlElem.tag : XmlElem → String
  | .mk t _ _ => t

def XmlElem.attrs : XmlElem → List (String × String)
  | .mk _ a _ => a

def XmlElem.children : XmlElem → XmlList
  | .mk _ _ c => c

/-- Abbreviation for building concrete elements. -/
def el (t : String) (a : List (String × String)) (c : XmlList) : XmlElem := .mk t a c

/-- `Element.get(k)`: the value of attribute `k`, if present. -/
def attr (e : XmlElem) (k : String) : Option String :=
  (e.attrs.find? (fun p => p.1 == k)).map Prod.snd

/-- `Element.get(k, d)`: attribute lookup with a default. -/
def attrD (e : XmlElem) (k : String) (d : String) : String := (attr e k).getD d

/-- `Element.find(tag)`: first direct child with the given tag. -/
def XmlList.findTag : XmlList → String → Option XmlElem
  | .nil, _ => none
  | .cons c cs, t => if c.tag = t then some c else cs.findTag t

mutual
/-- `Element.findall('.//tag')`: all proper descendants with the tag, in document order. -/
def descAll (e : XmlElem) (tag : String) : List XmlElem :=
  match e with
  | .mk _ _ kids => descAllList kids tag
def descAllList (l : XmlList) (tag : String) : List XmlElem :=
  match l with
  | .nil => []
  | .cons c cs => (if c.tag = tag then [c] else []) ++ descAll c tag ++ descAllList cs tag
end

/-- `Element.find('.//tag')`: first proper descendant with the tag. -/
def findDesc (e : XmlElem) (tag : String) : Option XmlElem := (descAll e tag).head?

/-! ## Records produced by the catalog operations -/

/-- One entry of the list built by `list_workbooks`. -/
structure Workbook where
  id : Option String
  name : Option String
  description : String
  size : String
  createdAt : Option String
  updatedAt : Option String
  project : Option String
  owner : Option String
deriving DecidableEq, Repr

/-- One entry of the list built by `list_data_sources`. -/
structure DataSource where
  id : Option String
  name : Option String
  description : String
  type : Option String
  createdAt : Option String
  updatedAt : Option String
  project : Option String
deriving DecidableEq, Repr

/-- One entry of the views list built by `get_workbook_details`. -/
structure View where
  id : Option String
  name : Option String
  contentUrl : Option String
  viewUrlName : Option String
deriving DecidableEq, Repr

/-- The dictionary returned by `get_workbook_details`. -/
structure WorkbookDetail where
  id : Option String
  name : Option String
  description : String
  size : String
  views : List View
  viewCount : Nat
deriving DecidableEq, Repr

/-! ## Responses, session state, configuration, exceptions -/

/-- Outcome of the sign-in POST in `authenticate`. -/
inductive SigninResp where
  /-- the request itself raised (network error etc.) -/
  | transportExn
  /-- non-200 status -/
  | httpError
  /-- 200 whose body fails `ET.fromstring` -/
  | okMalformed
  /-- 200 with a well-formed XML body -/
  | okParsed (root : XmlElem)

/-- Outcome of `make_api_request` as seen by the catalog operations:
`noResp` is the `None` returned on a non-success status or transport error,
`emptyStr` an empty `200` body, `malformed` a body `ET.fromstring` rejects,
`xml` a well-formed body. -/
inductive ApiResponse where
  | noResp
  | emptyStr
  | malformed
  | xml (root : XmlElem)

/-- The mutable auth fields of `TableauServerMCP`. -/
structure SessionState where
  authToken : Option String
  siteUuid : Option String
deriving DecidableEq, Repr

/-- The environment-derived configuration fields of `TableauServerMCP`. -/
structure Config where
  serverUrl : String
  siteId : String
  tokenName : Option String
  tokenValue : Option String

/-- The Python exceptions the embedded code can raise. -/
inductive PyExc where
  | valueError (msg : String)
  | attributeError (msg : String)
deriving DecidableEq, Repr

/-- `str(e)` for the exceptions above. -/
def pyExcMsg : PyExc → String
  | .valueError m => m
  | .attributeError m => m

/-- The mocked remote server: what each endpoint would answer. -/
structure Env where
  signin : SigninResp
  workbooks : ApiResponse
  datasources : ApiResponse
  workbookById : String → ApiResponse
  viewsById : String → ApiResponse

/-! ## `TableauServerMCP.authenticate` -/

/-- `TableauServerMCP.authenticate`: raises `ValueError` when the credential
pair is falsy; otherwise, on a 200 well-formed body, extracts the token from
the `credentials` element and the site UUID from its `site` child (each
independently, and only when present); on any failure returns `False` with
the state untouched. -/
def authenticate (cfg : Config) (st : SessionState) (resp : SigninResp) :
    Except PyExc (Bool × SessionState) :=
  if isFalsyOpt cfg.tokenName || isFalsyOpt cfg.tokenValue then
    .error (.valueError "TABLEAU_TOKEN_NAME and TABLEAU_TOKEN_VALUE must be set in .env file")
  else
    match resp with
    | .transportExn => .ok (false, st)
    | .httpError => .ok (false, st)
    | .okMalformed => .ok (false, st)
    | .okParsed root =>
      match findDesc root "credentials" with
      | none => .ok (true, st)
      | some cred =>
        let st1 : SessionState := { st with authToken := attr cred "token" }
        match cred.children.findTag "site" with
        | none => .ok (true, st1)
        | some site => .ok (true, { st1 with siteUuid := attr site "id" })

/-! ## `make_api_request` and the catalog operations -/

/-- `TableauServerMCP.make_api_request`: authenticates first when no token is
held, then yields the server's answer for the endpoint. -/
def make_api_request (cfg : Config) (st : SessionState) (signin : SigninResp)
    (resp : ApiResponse) : Except PyExc (ApiResponse × SessionState) :=
  if isFalsyOpt st.authToken then
    match authenticate cfg st signin with
    | .error e => .error e
    | .ok (_, st1) => .ok (resp, st1)
  else .ok (resp, st)

/-- The parsing half of `list_workbooks` (lines 135-155): falsy or malformed
responses give `[]`, otherwise every `workbook` descendant is flattened. -/
def parseWorkbook (e : XmlElem) : Workbook :=
  { id := attr e "id"
    name := attr e "name"
    description := attrD e "description" ""
    size := attrD e "size" "0"
    createdAt := attr e "createdAt"
    updatedAt := attr e "updatedAt"
    project := match findDesc e "project" with
      | some p => attr p "name"
      | none => some "Unknown"
    owner := match findDesc e "owner" with
      | some o => attr o "name"
      | none => some "Unknown" }

def parseWorkbooks : ApiResponse → List Workbook
  | .noResp => []
  | .emptyStr => []
  | .malformed => []
  | .xml root => (descAll root "workbook").map parseWorkbook

/-- The parsing half of `list_data_sources` (lines 160-179). -/
def parseDataSource (e : XmlElem) : DataSource :=
  { id := attr e "id"
    name := attr e "name"
    description := attrD e "description" ""
    type := attr e "type"
    createdAt := attr e "createdAt"
    updatedAt := attr e "updatedAt"
    project := match findDesc e "project" with
      | some p => attr p "name"
      | none => some "Unknown" }

def parseDataSources : ApiResponse → List DataSource
  | .noResp => []
  | .emptyStr => []
  | .malformed => []
  | .xml root => (descAll root "datasource").map parseDataSource

/-- `TableauServerMCP.list_workbooks`. -/
def list_workbooks_op (cfg : Config) (st : SessionState) (env : Env) :
    Except PyExc (List Workbook × SessionState) :=
  match make_api_request cfg st env.signin env.workbooks with
  | .error e => .error e
  | .ok (r, st1) => .ok (parseWorkbooks r, st1)

/-- `TableauServerMCP.list_data_sources`. -/
def list_data_sources_op (cfg : Config) (st : SessionState) (env : Env) :
    Except PyExc (List DataSource × SessionState) :=
  match make_api_request cfg st env.signin env.datasources with
  | .error e => .error e
  | .ok (r, st1) => .ok (parseDataSources r, st1)

/-- One entry of the views list in `get_workbook_details`. -/
def parseView (e : XmlElem) : View :=
  { id := attr e "id"
    name := attr e "name"
    contentUrl := attr e "contentUrl"
    viewUrlName := attr e "viewUrlName" }

/-- The dictionary literal at lines 204-211. -/
def mkDetail (wb : XmlElem) (views : List View) : WorkbookDetail :=
  { id := attr wb "id"
    name := attr wb "name"
    description := attrD wb "description" ""
    size := attrD wb "size" "0"
    views := views
    viewCount := views.length }

/-- `TableauServerMCP.get_workbook_details`: `None` on a falsy or malformed
workbook response or a missing `workbook` element; otherwise the views are
fetched — a malformed views body raises `ParseError`, which the surrounding
`except` turns into `None`, a falsy one leaves the views empty. -/
def get_workbook_details_op (cfg : Config) (st : SessionState) (env : Env)
    (wid : String) : Except PyExc (Option WorkbookDetail × SessionState) :=
  match make_api_request cfg st env.signin (env.workbookById wid) with
  | .error e => .error e
  | .ok (r, st1) =>
    match r with
    | .noResp => .ok (none, st1)
    | .emptyStr => .ok (none, st1)
    | .malformed => .ok (none, st1)
    | .xml root =>
      match findDesc root "workbook" with
      | none => .ok (none, st1)
      | some wb =>
        match make_api_request cfg st1 env.signin (env.viewsById wid) with
        | .error e => .error e
        | .ok (vr, st2) =>
          match vr with
          | .malformed => .ok (none, st2)
          | .noResp => .ok (some (mkDetail wb []), st2)
          | .emptyStr => .ok (some (mkDetail wb []), st2)
          | .xml vroot => .ok (some (mkDetail wb ((descAll vroot "view").map parseView)), st2)

/-! ## Tool dispatcher (`handle_call_tool`) -/

/-- Result of one tool call: the single text content plus the error flag. -/
structure ToolResult where
  text : String
  isError : Bool
deriving DecidableEq, Repr

/-- The arguments dictionary of a tool call (`dict.get` yields `none` for a
missing key). -/
structure Args where
  workbook_name : Option String
  workbook_id : Option String
  query : Option String

/-- The `test_connection` success text (lines 306-308). -/
def testConnText (cfg : Config) (st : SessionState) : String :=
  "‚úÖ Successfully connected to " ++ cfg.serverUrl ++ "\n" ++
  "Site: " ++ cfg.siteId ++ "\n" ++
  "Auth Token: " ++ (if isFalsyOpt st.authToken then "Missing" else "Present")

/-- One workbook entry of the `list_workbooks` text (lines 324-328). -/
def fmtWorkbook (wb : Workbook) : String :=
  "üìä **" ++ pyShowOpt wb.name ++ "**\n" ++
  "   Project: " ++ pyShowOpt wb.project ++ "\n" ++
  "   Owner: " ++ pyShowOpt wb.owner ++ "\n" ++
  "   Updated: " ++ pyShowOpt wb.updatedAt ++ "\n" ++
  "   Size: " ++ wb.size ++ " bytes\n"

/-- One data-source entry of the `list_data_sources` text (lines 349-352). -/
def fmtDataSource (ds : DataSource) : String :=
  "üóÑÔ∏è **" ++ pyShowOpt ds.name ++ "**\n" ++
  "   Type: " ++ pyShowOpt ds.type ++ "\n" ++
  "   Project: " ++ pyShowOpt ds.project ++ "\n" ++
  "   Updated: " ++ pyShowOpt ds.updatedAt ++ "\n"

/-- One view line of the workbook-details text (line 392). -/
def fmtView (v : View) : String := "   üìã " ++ pyShowOpt v.name

/-- The workbook-details text (lines 397-400). -/
def detailsText (d : WorkbookDetail) : String :=
  "üìä **Workbook Details: " ++ pyShowOpt d.name ++ "**\n\n" ++
  "**Worksheets & Dashboards (" ++ toString d.viewCount ++ "):**\n" ++
  String.intercalate "\n" (d.views.map fmtView) ++ "\n\n" ++
  "**Size:** " ++ d.size ++ " bytes\n" ++
  "**Description:** " ++ d.description

/-- Line 376: `next((wb for wb in workbooks if wb['name'].lower() ==
workbook_name.lower()), None)`; a workbook whose name is `None` raises
`AttributeError` when the generator reaches it. -/
def findWorkbookByName : List Workbook → String → Except PyExc (Option Workbook)
  | [], _ => .ok none
  | wb :: rest, q =>
    match wb.name with
    | none => .error (.attributeError "'NoneType' object has no attribute 'lower'")
    | some s => if pyLower s = pyLower q then .ok (some wb) else findWorkbookByName rest q

/-- The workbook filter of `search_content` (line 425); `q` is the already
lowered query. -/
def wbMatch (q : String) (wb : Workbook) : Except PyExc Bool :=
  match wb.name with
  | none => .error (.attributeError "'NoneType' object has no attribute 'lower'")
  | some s => .ok (strIn q (pyLower s) || strIn q (pyLower wb.description))

/-- The data-source filter of `search_content` (line 426). -/
def dsMatch (q : String) (ds : DataSource) : Except PyExc Bool :=
  match ds.name with
  | none => .error (.attributeError "'NoneType' object has no attribute 'lower'")
  | some s => .ok (strIn q (pyLower s) || strIn q (pyLower ds.description))

/-- A Python list comprehension whose predicate may raise. -/
def filterE {α : Type} (p : α → Except PyExc Bool) : List α → Except PyExc (List α)
  | [] => .ok []
  | x :: xs =>
    match p x with
    | .error e => .error e
    | .ok b =>
      match filterE p xs with
      | .error e => .error e
      | .ok r => .ok (if b then x :: r else r)

def wbSearchHeader (q : String) : String := "**üìä Workbooks matching '" ++ q ++ "':**"

def wbSearchEntry (wb : Workbook) : String :=
  "   ‚Ä¢ " ++ pyShowOpt wb.name ++ " (Project: " ++ pyShowOpt wb.project ++ ")"

def dsSearchHeader (q : String) : String := "\n**üóÑÔ∏è Data Sources matching '" ++ q ++ "':**"

def dsSearchEntry (ds : DataSource) : String :=
  "   ‚Ä¢ " ++ pyShowOpt ds.name ++ " (Type: " ++ pyShowOpt ds.type ++ ")"

def noContentMsg (q : String) : String := "No content found matching '" ++ q ++ "'"

/-- The `results` list built at lines 428-441 (`q` is the lowered query). -/
def searchResults (q : String) (mw : List Workbook) (md : List DataSource) : List String :=
  (if mw.isEmpty then [] else wbSearchHeader q :: mw.map wbSearchEntry) ++
  (if md.isEmpty then [] else dsSearchHeader q :: md.map dsSearchEntry) ++
  (if mw.isEmpty && md.isEmpty then [noContentMsg q] else [])

/-- The `search_content` branch (lines 420-448) given the already fetched
lists; lowers the raw query, filters both lists, renders the result. -/
def searchContent (rawQ : String) (wbs : List Workbook) (dss : List DataSource) :
    Except PyExc ToolResult :=
  let q := pyLower rawQ
  match filterE (wbMatch q) wbs with
  | .error e => .error e
  | .ok mw =>
    match filterE (dsMatch q) dss with
    | .error e => .error e
    | .ok md => .ok { text := String.intercalate "\n" (searchResults q mw md), isError := false }

/-- Lines 388-418: fetch and render details for a resolved (possibly still
falsy) workbook id. -/
def gwdWithId (cfg : Config) (st : SessionState) (env : Env) (wid : Option String) :
    Except PyExc (ToolResult × SessionState) :=
  if isFalsyOpt wid then
    .ok ({ text := "‚ùå Please provide either workbook_name or workbook_id.", isError := true }, st)
  else
    match get_workbook_details_op cfg st env (wid.getD "") with
    | .error e => .error e
    | .ok (some d, st1) => .ok ({ text := detailsText d, isError := false }, st1)
    | .ok (none, st1) =>
      .ok ({ text := "‚ùå Unable to retrieve workbook details.", isError := true }, st1)

/-- The `get_workbook_details` branch (lines 369-418). -/
def gwdBranch (cfg : Config) (st : SessionState) (env : Env) (args : Args) :
    Except PyExc (ToolResult × SessionState) :=
  if !isFalsyOpt args.workbook_name && isFalsyOpt args.workbook_id then
    match list_workbooks_op cfg st env with
    | .error e => .error e
    | .ok (wbs, st1) =>
      match findWorkbookByName wbs (args.workbook_name.getD "") with
      | .error e => .error e
      | .ok (some wb) => gwdWithId cfg st1 env wb.id
      | .ok none =>
        .ok ({ text := "‚ùå Workbook '" ++ pyShowOpt args.workbook_name ++ "' not found."
               isError := true }, st1)
  else gwdWithId cfg st env args.workbook_id

/-- The body of `handle_call_tool` (inside the `try`), threading the session
state; exceptions escape as `Except.error`. -/
def handleCallToolBody (cfg : Config) (st : SessionState) (env : Env)
    (name : String) (args : Args) : Except PyExc (ToolResult × SessionState) :=
  if name = "test_connection" then
    match authenticate cfg st env.signin with
    | .error e => .error e
    | .ok (true, st1) => .ok ({ text := testConnText cfg st1, isError := false }, st1)
    | .ok (false, st1) =>
      .ok ({ text := "‚ùå Failed to connect to Tableau Server. Check your credentials and network connection."
             isError := true }, st1)
  else if name = "list_workbooks" then
    match list_workbooks_op cfg st env with
    | .error e => .error e
    | .ok (wbs, st1) =>
      if wbs.isEmpty then
        .ok ({ text := "No workbooks found or unable to retrieve workbooks.", isError := false }, st1)
      else
        .ok ({ text := "Found " ++ toString wbs.length ++ " workbooks on tableau.nordstrom.com:\n\n" ++
                       String.intercalate "\n" (wbs.map fmtWorkbook)
               isError := false }, st1)
  else if name = "list_data_sources" then
    match list_data_sources_op cfg st env with
    | .error e => .error e
    | .ok (dss, st1) =>
      if dss.isEmpty then
        .ok ({ text := "No data sources found or unable to retrieve data sources.", isError := false }, st1)
      else
        .ok ({ text := "Found " ++ toString dss.length ++ " data sources:\n\n" ++
                       String.intercalate "\n" (dss.map fmtDataSource)
               isError := false }, st1)
  else if name = "get_workbook_details" then
    gwdBranch cfg st env args
  else if name = "search_content" then
    match list_workbooks_op cfg st env with
    | .error e => .error e
    | .ok (wbs, st1) =>
      match list_data_sources_op cfg st1 env with
      | .error e => .error e
      | .ok (dss, st2) =>
        match searchContent (args.query.getD "") wbs dss with
        | .error e => .error e
        | .ok r => .ok (r, st2)
  else
    .ok ({ text := "Unknown tool: " ++ name, isError := true }, st)

/-- `handle_call_tool`: the body wrapped in the catch-all `except Exception`
of lines 459-467, which renders any exception as an error-flagged result. -/
def handleCallTool (cfg : Config) (st : SessionState) (env : Env)
    (name : String) (args : Args) : Except PyExc ToolResult :=
  match handleCallToolBody cfg st env name args with
  | .ok (r, _) => .ok r
  | .error e => .ok { text := "Error executing " ++ name ++ ": " ++ pyExcMsg e, isError := true }

/-! ## Concrete fixtures -/

def cfgOk : Config :=
  { serverUrl := "https://tableau.nordstrom.com", siteId := "technology-support-services"
    tokenName := some "pat-name", tokenValue := some "pat-secret" }

def cfgNoCreds : Config :=
  { serverUrl := "https://tableau.nordstrom.com", siteId := "technology-support-services"
    tokenName := none, tokenValue := some "pat-secret" }

def st0 : SessionState := { authToken := none, siteUuid := none }

def stAuth : SessionState := { authToken := some "T1", siteUuid := some "S1" }

/-- A sign-in body carrying both token `T1` and site id `S1`. -/
def signinFullRoot : XmlElem :=
  el "tsResponse" []
    (.cons (el "credentials" [("token", "T1")]
      (.cons (el "site" [("id", "S1")] .nil) .nil)) .nil)

/-- A sign-in body whose `credentials` element carries a token but no `site` child. -/
def signinTokenOnlyRoot : XmlElem :=
  el "tsResponse" [] (.cons (el "credentials" [("token", "T1")] .nil) .nil)

/-- A well-formed 200 body with no `credentials` element at all. -/
def emptyRoot : XmlElem := el "tsResponse" [] .nil

def envEmpty : Env :=
  { signin := .okParsed signinFullRoot
    workbooks := .noResp, datasources := .noResp
    workbookById := fun _ => .noResp, viewsById := fun _ => .noResp }

def argsNone : Args := { workbook_name := none, workbook_id := none, query := none }

/-! ## Spec-side definitions (used to compare code behaviour with the spec's words) -/

/-- Spec-modelled, for comparison: "a valid Session has either both token and
site UUID set, or neither (auth is all-or-nothing)". -/
def allOrNothing (st : SessionState) : Prop :=
  (st.authToken = none ∧ st.siteUuid = none) ∨ (st.authToken ≠ none ∧ st.siteUuid ≠ none)

/-- Spec-modelled, for comparison: "contains the query case-insensitively". -/
def specContainsCI (q s : String) : Bool := strIn (pyLower q) (pyLower s)

/-- Spec-modelled, for comparison: a workbook matches a search query when its
name or description contains it case-insensitively. -/
def specWbMatches (q : String) (wb : Workbook) : Bool :=
  specContainsCI q (pyShowOpt wb.name) || specContainsCI q wb.description

/-- Spec-modelled, for comparison: the data-source analogue of `specWbMatches`. -/
def specDsMatches (q : String) (ds : DataSource) : Bool :=
  specContainsCI q (pyShowOpt ds.name) || specContainsCI q ds.description

/-- Spec-modelled, for comparison: name resolution as "case-insensitive exact
match, first match in list order wins". -/
def specResolve (wbs : List Workbook) (n : String) : Option Workbook :=
  wbs.find? (fun wb => decide (wb.name.map pyLower = some (pyLower n)))

/-! ## C1 -/

/-- C1 counterexample: a 200 sign-in body whose `credentials` element carries a
token but no `site` child leaves the session with the auth token set and the
site UUID unset, so authentication is not all-or-nothing. -/
theorem C1_counterexample :
    authenticate cfgOk st0 (.okParsed signinTokenOnlyRoot) =
      .ok (true, { authToken := some "T1", siteUuid := none }) ∧
    ¬ allOrNothing { authToken := some "T1", siteUuid := none } := by
  constructor
  · rfl
  · unfold allOrNothing
    decide

/-- C1 (amended): token and site UUID are extracted independently, so the
all-or-nothing invariant holds only on the unexceptional paths: a complete
sign-in body (credentials element with a token attribute and a site child with
an id) sets both fields, and every failing sign-in (transport error, non-200,
malformed body) leaves the session state untouched; a partial 200 body may set
exactly one field (see the counterexample). -/
theorem C1_auth_all_or_nothing_amended :
    (∀ cfg st root cred site t i,
      isFalsyOpt cfg.tokenName = false → isFalsyOpt cfg.tokenValue = false →
      findDesc root "credentials" = some cred →
      attr cred "token" = some t →
      cred.children.findTag "site" = some site →
      attr site "id" = some i →
      authenticate cfg st (.okParsed root) =
        .ok (true, { authToken := some t, siteUuid := some i })) ∧
    (∀ cfg st,
      isFalsyOpt cfg.tokenName = false → isFalsyOpt cfg.tokenValue = false →
      authenticate cfg st .transportExn = .ok (false, st) ∧
      authenticate cfg st .httpError = .ok (false, st) ∧
      authenticate cfg st .okMalformed = .ok (false, st)) := by
  constructor
  · intro cfg st root cred site t i hn hv hc htok hsite hid
    simp [authenticate, hn, hv, hc, htok, hsite, hid]
  · intro cfg st hn hv
    refine ⟨?_, ?_, ?_⟩ <;> simp [authenticate, hn, hv]

/-- C1 witness: the amended theorem applied to the full sign-in fixture and to
a failing sign-in. -/
theorem C1_witness :
    authenticate cfgOk st0 (.okParsed signinFullRoot) = .ok (true, stAuth) ∧
    authenticate cfgOk st0 .httpError = .ok (false, st0) :=
  ⟨C1_auth_all_or_nothing_amended.1 cfgOk st0 signinFullRoot _ _ "T1" "S1" rfl rfl rfl rfl rfl rfl,
   (C1_auth_all_or_nothing_amended.2 cfgOk st0 rfl rfl).2.1⟩

/-! ## C2 -/

/-- C2: the dispatcher never lets an exception escape the tool boundary —
for every tool name, argument dictionary, configuration, session state and
server behaviour, `handle_call_tool` returns a text result (the catch-all
`except` turns any raised exception into an error-flagged text); in
particular, the `ValueError` raised by `authenticate` under missing
credentials is caught and rendered. -/
theorem C2_dispatcher_never_raises :
    (∀ cfg st env name args, ∃ r, handleCallTool cfg st env name args = .ok r) ∧
    handleCallTool cfgNoCreds st0 envEmpty "list_workbooks" argsNone =
      .ok { text := "Error executing list_workbooks: TABLEAU_TOKEN_NAME and TABLEAU_TOKEN_VALUE must be set in .env file"
            isError := true } := by
  constructor
  · intro cfg st env name args
    unfold handleCallTool
    match h : handleCallToolBody cfg st env name args with
    | .ok (r, st1) => exact ⟨r, rfl⟩
    | .error e => exact ⟨_, rfl⟩
  · rfl

/-! ## C7 -/

/-- C7: with the credential pair absent (or empty, which Python treats the
same), `authenticate` raises the configuration `ValueError` and the outcome
does not depend on any sign-in response — no sign-in request is consulted. -/
theorem C7_missing_credentials :
    ∀ cfg st resp resp2,
      (isFalsyOpt cfg.tokenName = true ∨ isFalsyOpt cfg.tokenValue = true) →
      authenticate cfg st resp =
        .error (.valueError "TABLEAU_TOKEN_NAME and TABLEAU_TOKEN_VALUE must be set in .env file") ∧
      authenticate cfg st resp = authenticate cfg st resp2 := by
  intro cfg st resp resp2 h
  have hcond : (isFalsyOpt cfg.tokenName || isFalsyOpt cfg.tokenValue) = true := by
    rcases h with h | h <;> simp [h]
  constructor <;> simp [authenticate, hcond]

/-- C7 witness: a configuration with no token name fails identically on two
different sign-in responses. -/
theorem C7_witness :
    authenticate cfgNoCreds st0 .httpError =
      .error (.valueError "TABLEAU_TOKEN_NAME and TABLEAU_TOKEN_VALUE must be set in .env file") ∧
    authenticate cfgNoCreds st0 .httpError =
      authenticate cfgNoCreds st0 (.okParsed signinFullRoot) :=
  C7_missing_credentials cfgNoCreds st0 .httpError (.okParsed signinFullRoot) (Or.inl rfl)

/-! ## C6 -/

/-- C6: with a token already held (so the request is actually issued), a
missing, empty or syntactically malformed server response makes both
`list_workbooks` and `list_data_sources` return the empty list without any
exception (the result is an `ok`, never an `error`). -/
theorem C6_empty_or_malformed_gives_empty_list :
    ∀ (cfg : Config) (st : SessionState) (env : Env) (r : ApiResponse),
      isFalsyOpt st.authToken = false →
      (r = ApiResponse.noResp ∨ r = ApiResponse.emptyStr ∨ r = ApiResponse.malformed) →
      list_workbooks_op cfg st { env with workbooks := r } = .ok ([], st) ∧
      list_data_sources_op cfg st { env with datasources := r } = .ok ([], st) := by
  intro cfg st env r ht hr
  rcases hr with h | h | h <;> subst h <;>
    exact ⟨by simp [list_workbooks_op, make_api_request, ht, parseWorkbooks],
           by simp [list_data_sources_op, make_api_request, ht, parseDataSources]⟩

/-- C6 witness: the theorem applied at a malformed response and an
authenticated session. -/
theorem C6_witness :
    list_workbooks_op cfgOk stAuth { envEmpty with workbooks := ApiResponse.malformed } =
      .ok ([], stAuth) ∧
    list_data_sources_op cfgOk stAuth { envEmpty with datasources := ApiResponse.malformed } =
      .ok ([], stAuth) :=
  C6_empty_or_malformed_gives_empty_list cfgOk stAuth envEmpty ApiResponse.malformed rfl
    (Or.inr (Or.inr rfl))

/-! ## C3 -/

/-- The mocked workbooks response of the end-to-end scenario: exactly one
`workbook` element carrying only `id="wb1"` and `name="Orders"`. -/
def wbScenarioRoot : XmlElem :=
  el "tsResponse" []
    (.cons (el "workbooks" []
      (.cons (el "workbook" [("id", "wb1"), ("name", "Orders")] .nil) .nil)) .nil)

def envScenario : Env :=
  { signin := .okParsed signinFullRoot
    workbooks := .xml wbScenarioRoot
    datasources := .noResp
    workbookById := fun _ => .noResp, viewsById := fun _ => .noResp }

/-- C3: `list_workbooks` defaulting — a missing `description` attribute gives
`""`, a missing `size` gives `"0"`, a missing nested `project` or `owner`
element gives `"Unknown"`; and end to end, with the mocked sign-in (token
`T1`, site `S1`) and a workbooks response holding exactly one workbook with
only `id="wb1" name="Orders"`, `list_workbooks` returns exactly the one
record with those defaults filled in. -/
theorem C3_workbook_defaults :
    (∀ e, attr e "description" = none → (parseWorkbook e).description = "") ∧
    (∀ e, attr e "size" = none → (parseWorkbook e).size = "0") ∧
    (∀ e, findDesc e "project" = none → (parseWorkbook e).project = some "Unknown") ∧
    (∀ e, findDesc e "owner" = none → (parseWorkbook e).owner = some "Unknown") ∧
    list_workbooks_op cfgOk st0 envScenario =
      .ok ([{ id := some "wb1", name := some "Orders", description := "", size := "0"
              createdAt := none, updatedAt := none
              project := some "Unknown", owner := some "Unknown" }], stAuth) := by
  refine ⟨?_, ?_, ?_, ?_, ?_⟩
  · intro e h; simp [parseWorkbook, attrD, h]
  · intro e h; simp [parseWorkbook, attrD, h]
  · intro e h; simp [parseWorkbook, h]
  · intro e h; simp [parseWorkbook, h]
  · rfl

/-- C3 witness: the defaulting clauses applied to a concrete attribute-less
workbook element. -/
theorem C3_witness :
    (parseWorkbook (el "workbook" [("id", "w")] .nil)).description = "" ∧
    (parseWorkbook (el "workbook" [("id", "w")] .nil)).size = "0" ∧
    (parseWorkbook (el "workbook" [("id", "w")] .nil)).project = some "Unknown" ∧
    (parseWorkbook (el "workbook" [("id", "w")] .nil)).owner = some "Unknown" :=
  ⟨C3_workbook_defaults.1 _ rfl, C3_workbook_defaults.2.1 _ rfl,
   C3_workbook_defaults.2.2.1 _ rfl, C3_workbook_defaults.2.2.2.1 _ rfl⟩

/-! ## C9 -/

def envNoCredBody : Env := { envEmpty with signin := .okParsed emptyRoot }

/-- C9: a 200 sign-in response with a well-formed XML body is reported as a
success even when no token could be extracted (no `credentials` element, so
the state is untouched); consequently `test_connection` on such a server
returns a non-error success message that reports the auth token as missing. -/
theorem C9_success_without_token :
    (∀ cfg st root,
      isFalsyOpt cfg.tokenName = false → isFalsyOpt cfg.tokenValue = false →
      findDesc root "credentials" = none →
      authenticate cfg st (.okParsed root) = .ok (true, st)) ∧
    handleCallTool cfgOk st0 envNoCredBody "test_connection" argsNone =
      .ok { text := testConnText cfgOk st0, isError := false } ∧
    strIn "Auth Token: Missing" (testConnText cfgOk st0) = true := by
  refine ⟨?_, ?_, ?_⟩
  · intro cfg st root hn hv hc
    simp [authenticate, hn, hv, hc]
  · rfl
  · rfl

/-- C9 witness: the first clause applied to the credentials-free body fixture. -/
theorem C9_witness :
    authenticate cfgOk stAuth (.okParsed emptyRoot) = .ok (true, stAuth) :=
  C9_success_without_token.1 cfgOk stAuth emptyRoot rfl rfl rfl

/-! ## C8 -/

/-- A workbook element that does carry timestamps and nested project/owner
data (variant A). -/
def detailWbElemA : XmlElem :=
  el "workbook" [("id", "w1"), ("name", "N"), ("createdAt", "2020-01-01"), ("updatedAt", "2020-02-02")]
    (.cons (el "project" [("name", "ProjA")] .nil)
      (.cons (el "owner" [("name", "OwnA")] .nil) .nil))

/-- The same workbook with different timestamps, project and owner (variant B). -/
def detailWbElemB : XmlElem :=
  el "workbook" [("id", "w1"), ("name", "N"), ("createdAt", "1999-01-01"), ("updatedAt", "1999-02-02")]
    (.cons (el "project" [("name", "ProjB")] .nil)
      (.cons (el "owner" [("name", "OwnB")] .nil) .nil))

def envDetailA : Env := { envEmpty with workbookById := fun _ => .xml (el "tsResponse" [] (.cons detailWbElemA .nil)) }

def envDetailB : Env := { envEmpty with workbookById := fun _ => .xml (el "tsResponse" [] (.cons detailWbElemB .nil)) }

/-- C8 counterexample: two workbook responses that differ in created/updated
timestamps, project name and owner name produce the *same* successful
`get_workbook_details` record, so the returned record cannot carry those
fields — it is not a full Workbook record.  (`parseWorkbook` on the same two
elements shows the responses really differ in that data.) -/
theorem C8_counterexample :
    get_workbook_details_op cfgOk stAuth envDetailA "w1" =
      get_workbook_details_op cfgOk stAuth envDetailB "w1" ∧
    get_workbook_details_op cfgOk stAuth envDetailA "w1" =
      .ok (some { id := some "w1", name := some "N", description := "", size := "0"
                  views := [], viewCount := 0 }, stAuth) ∧
    (parseWorkbook detailWbElemA).project = some "ProjA" ∧
    (parseWorkbook detailWbElemB).project = some "ProjB" ∧
    (parseWorkbook detailWbElemA).owner = some "OwnA" ∧
    (parseWorkbook detailWbElemB).owner = some "OwnB" ∧
    (parseWorkbook detailWbElemA).createdAt ≠ (parseWorkbook detailWbElemB).createdAt := by
  refine ⟨rfl, rfl, rfl, rfl, rfl, rfl, ?_⟩
  decide

/-- C8 (amended): the record returned by a successful `get_workbook_details`
holds id, name, description (default `""`), size (default `"0"`), the ordered
list of View records parsed from the views response, and a view count equal
to the length of that list — but no timestamps, project or owner; when the
workbook lookup fails (no response, empty or malformed body, or no `workbook`
element) the operation returns none. -/
theorem C8_detail_record_amended :
    (∀ (cfg : Config) (st : SessionState) (env : Env) (wid : String),
      isFalsyOpt st.authToken = false →
      (env.workbookById wid = ApiResponse.noResp ∨ env.workbookById wid = ApiResponse.emptyStr ∨
        env.workbookById wid = ApiResponse.malformed) →
      get_workbook_details_op cfg st env wid = .ok (none, st)) ∧
    (∀ (cfg : Config) (st : SessionState) (env : Env) (wid : String) (root : XmlElem),
      isFalsyOpt st.authToken = false →
      env.workbookById wid = ApiResponse.xml root →
      findDesc root "workbook" = none →
      get_workbook_details_op cfg st env wid = .ok (none, st)) ∧
    (∀ (cfg : Config) (st : SessionState) (env : Env) (wid : String)
        (root wb vroot : XmlElem),
      isFalsyOpt st.authToken = false →
      env.workbookById wid = ApiResponse.xml root →
      findDesc root "workbook" = some wb →
      env.viewsById wid = ApiResponse.xml vroot →
      get_workbook_details_op cfg st env wid =
        .ok (some { id := attr wb "id", name := attr wb "name"
                    description := attrD wb "description" "", size := attrD wb "size" "0"
                    views := (descAll vroot "view").map parseView
                    viewCount := ((descAll vroot "view").map parseView).length }, st)) := by
  refine ⟨?_, ?_, ?_⟩
  · intro cfg st env wid ht hr
    rcases hr with h | h | h <;> simp [get_workbook_details_op, make_api_request, ht, h]
  · intro cfg st env wid root ht hr hwb
    simp [get_workbook_details_op, make_api_request, ht, hr, hwb]
  · intro cfg st env wid root wb vroot ht hr hwb hv
    simp [get_workbook_details_op, make_api_request, ht, hr, hwb, hv, mkDetail]

/-- A views response with two views, to exercise the success clause. -/
def viewsRootW1 : XmlElem :=
  el "tsResponse" []
    (.cons (el "views" []
      (.cons (el "view" [("id", "v1"), ("name", "Dash"), ("contentUrl", "c1"), ("viewUrlName", "u1")] .nil)
        (.cons (el "view" [("id", "v2"), ("name", "Sheet")] .nil) .nil))) .nil)

def envDetailViews : Env := { envDetailA with viewsById := fun _ => .xml viewsRootW1 }

/-- C8 witness: each clause of the amended theorem applied to concrete
fixtures; the success case yields the two views in document order with
`viewCount = 2`. -/
theorem C8_witness :
    get_workbook_details_op cfgOk stAuth envEmpty "w1" = .ok (none, stAuth) ∧
    get_workbook_details_op cfgOk stAuth { envEmpty with workbookById := fun _ => .xml emptyRoot } "w1" =
      .ok (none, stAuth) ∧
    get_workbook_details_op cfgOk stAuth envDetailViews "w1" =
      .ok (some { id := attr detailWbElemA "id", name := attr detailWbElemA "name"
                  description := attrD detailWbElemA "description" ""
                  size := attrD detailWbElemA "size" "0"
                  views := (descAll viewsRootW1 "view").map parseView
                  viewCount := ((descAll viewsRootW1 "view").map parseView).length }, stAuth) :=
  ⟨C8_detail_record_amended.1 cfgOk stAuth envEmpty "w1" rfl (Or.inl rfl),
   C8_detail_record_amended.2.1 cfgOk stAuth _ "w1" emptyRoot rfl rfl rfl,
   C8_detail_record_amended.2.2 cfgOk stAuth envDetailViews "w1" _ detailWbElemA viewsRootW1 rfl rfl rfl rfl⟩

/-! ## C10 -/

/-- C10: when both `workbook_name` and `workbook_id` are supplied (the id
being truthy), name resolution is skipped entirely: the dispatcher's result
equals the result of the same call without a name, whatever the name is and
whatever the workbook catalog would have answered (the catalog response is
never consulted). -/
theorem C10_id_overrides_name :
    ∀ (cfg : Config) (st : SessionState) (env : Env) (n i : String)
      (q : Option String) (wbr : ApiResponse),
      (i == "") = false →
      handleCallTool cfg st { env with workbooks := wbr } "get_workbook_details"
        { workbook_name := some n, workbook_id := some i, query := q } =
      handleCallTool cfg st env "get_workbook_details"
        { workbook_name := none, workbook_id := some i, query := q } := by
  intro cfg st env n i q wbr hi
  cases env with
  | mk sg wbks dss wbid vws =>
    simp [handleCallTool, handleCallToolBody, gwdBranch, gwdWithId, isFalsyOpt, hi]
    rfl

/-- C10 witness: the theorem applied at a name matching nothing and a
catalog that was swapped out, with a concrete id. -/
theorem C10_witness :
    handleCallTool cfgOk stAuth { envEmpty with workbooks := ApiResponse.malformed }
      "get_workbook_details" { workbook_name := some "No Such Workbook", workbook_id := some "w1", query := none } =
    handleCallTool cfgOk stAuth envEmpty "get_workbook_details"
      { workbook_name := none, workbook_id := some "w1", query := none } :=
  C10_id_overrides_name cfgOk stAuth envEmpty "No Such Workbook" "w1" none ApiResponse.malformed rfl

/-! ## C4 -/

def wbSalesReport : Workbook :=
  { id := some "1", name := some "Sales Report", description := "", size := "0"
    createdAt := none, updatedAt := none, project := some "Unknown", owner := some "Unknown" }

def wbSalesCopy : Workbook :=
  { id := some "2", name := some "sales report copy", description := "", size := "0"
    createdAt := none, updatedAt := none, project := some "Unknown", owner := some "Unknown" }

/-- C4: name resolution in `get_workbook_details` is the first (in list
order) workbook whose lowered name equals the lowered argument — exact and
case-insensitive, so `"SALES REPORT"` picks `"Sales Report"` and never the
strict superstring `"sales report copy"` even though the query is a
substring of it; and when nothing matches, the dispatcher answers with an
error-flagged text instead of raising. -/
theorem C4_name_resolution :
    (∀ (wbs : List Workbook) (n : String),
      (∀ wb ∈ wbs, wb.name.isSome) →
      findWorkbookByName wbs n = .ok (specResolve wbs n)) ∧
    (strIn (pyLower "SALES REPORT") (pyLower "sales report copy") = true ∧
      findWorkbookByName [wbSalesReport, wbSalesCopy] "SALES REPORT" = .ok (some wbSalesReport) ∧
      findWorkbookByName [wbSalesCopy] "SALES REPORT" = .ok none) ∧
    (∀ (cfg : Config) (st : SessionState) (env : Env) (n : String) (q : Option String),
      isFalsyOpt st.authToken = false →
      (n == "") = false →
      findWorkbookByName (parseWorkbooks env.workbooks) n = .ok none →
      handleCallTool cfg st env "get_workbook_details"
        { workbook_name := some n, workbook_id := none, query := q } =
        .ok { text := "‚ùå Workbook '" ++ n ++ "' not found.", isError := true }) := by
  refine ⟨?_, ⟨rfl, rfl, rfl⟩, ?_⟩
  · intro wbs n h
    induction wbs with
    | nil => rfl
    | cons wb rest ih =>
      have hname := h wb (List.mem_cons_self wb rest)
      obtain ⟨s, hs⟩ := Option.isSome_iff_exists.mp hname
      have hr := ih (fun w hw => h w (List.mem_cons_of_mem _ hw))
      by_cases hc : pyLower s = pyLower n
      · simp [findWorkbookByName, specResolve, hs, hc, List.find?]
      · simp [findWorkbookByName, specResolve, hs, hc, List.find?]
        simpa [specResolve] using hr
  · intro cfg st env n q ht hn hfind
    have hfn : isFalsyOpt (some n) = false := by simp [isFalsyOpt, hn]
    have h0 : isFalsyOpt none = true := rfl
    simp [handleCallTool, handleCallToolBody, gwdBranch, hfn, h0, list_workbooks_op,
      make_api_request, ht, hfind, pyShowOpt]

/-- C4 witness: resolution applied to the two-workbook catalog, and the
dispatcher applied to an empty catalog with an unresolvable name. -/
theorem C4_witness :
    findWorkbookByName [wbSalesReport, wbSalesCopy] "SALES REPORT" =
      .ok (specResolve [wbSalesReport, wbSalesCopy] "SALES REPORT") ∧
    handleCallTool cfgOk stAuth envEmpty "get_workbook_details"
      { workbook_name := some "Ghost", workbook_id := none, query := none } =
      .ok { text := "‚ùå Workbook 'Ghost' not found.", isError := true } :=
  ⟨C4_name_resolution.1 [wbSalesReport, wbSalesCopy] "SALES REPORT" (by decide),
   C4_name_resolution.2.2 cfgOk stAuth envEmpty "Ghost" none rfl rfl rfl⟩

/-! ## C5 -/

/-- The workbook list comprehension of `search_content` agrees with the
spec-side filter whenever every workbook has a name. -/
theorem filterE_wbMatch_eq_filter (rawQ : String) (wbs : List Workbook)
    (h : ∀ wb ∈ wbs, wb.name.isSome) :
    filterE (wbMatch (pyLower rawQ)) wbs = .ok (wbs.filter (specWbMatches rawQ)) := by
  induction wbs with
  | nil => rfl
  | cons wb rest ih =>
    obtain ⟨s, hs⟩ := Option.isSome_iff_exists.mp (h wb (List.mem_cons_self wb rest))
    have hr := ih (fun w hw => h w (List.mem_cons_of_mem _ hw))
    simp [filterE, wbMatch, hs, hr, List.filter_cons, specWbMatches, specContainsCI, pyShowOpt]

/-- The data-source list comprehension of `search_content` agrees with the
spec-side filter whenever every data source has a name. -/
theorem filterE_dsMatch_eq_filter (rawQ : String) (dss : List DataSource)
    (h : ∀ ds ∈ dss, ds.name.isSome) :
    filterE (dsMatch (pyLower rawQ)) dss = .ok (dss.filter (specDsMatches rawQ)) := by
  induction dss with
  | nil => rfl
  | cons ds rest ih =>
    obtain ⟨s, hs⟩ := Option.isSome_iff_exists.mp (h ds (List.mem_cons_self ds rest))
    have hr := ih (fun w hw => h w (List.mem_cons_of_mem _ hw))
    simp [filterE, dsMatch, hs, hr, List.filter_cons, specDsMatches, specContainsCI, pyShowOpt]

/-- The rendered `results` list is exactly the no-content message iff both
match lists are empty (any match contributes a header plus one line per hit). -/
theorem searchResults_eq_noContent_iff (q : String) (mw : List Workbook) (md : List DataSource) :
    searchResults q mw md = [noContentMsg q] ↔ mw = [] ∧ md = [] := by
  constructor
  · intro h
    cases mw with
    | nil =>
      cases md with
      | nil => exact ⟨rfl, rfl⟩
      | cons d ds =>
        exfalso
        have hl := congrArg List.length h
        simp [searchResults] at hl
    | cons w ws =>
      exfalso
      have hl := congrArg List.length h
      cases md with
      | nil => simp [searchResults] at hl
      | cons d ds => simp [searchResults] at hl
  · rintro ⟨h1, h2⟩
    subst h1; subst h2
    rfl

/-- C5: `search_content` (with every catalog entry named, so the compare
never faults) returns a non-error text rendered from exactly the workbooks
and data sources whose name or description contains the query
case-insensitively, and the rendered result list is the "No content found"
message precisely when both match lists are empty. -/
theorem C5_search_content :
    ∀ (rawQ : String) (wbs : List Workbook) (dss : List DataSource),
      (∀ wb ∈ wbs, wb.name.isSome) →
      (∀ ds ∈ dss, ds.name.isSome) →
      searchContent rawQ wbs dss =
        .ok { text := String.intercalate "\n"
                (searchResults (pyLower rawQ) (wbs.filter (specWbMatches rawQ))
                  (dss.filter (specDsMatches rawQ)))
              isError := false } ∧
      (searchResults (pyLower rawQ) (wbs.filter (specWbMatches rawQ))
          (dss.filter (specDsMatches rawQ)) = [noContentMsg (pyLower rawQ)] ↔
        wbs.filter (specWbMatches rawQ) = [] ∧ dss.filter (specDsMatches rawQ) = []) := by
  intro rawQ wbs dss h1 h2
  refine ⟨?_, searchResults_eq_noContent_iff _ _ _⟩
  simp [searchContent, filterE_wbMatch_eq_filter rawQ wbs h1, filterE_dsMatch_eq_filter rawQ dss h2]

/-- C5 witness: the theorem applied to a one-workbook catalog and the query
"Sales" (which matches case-insensitively). -/
theorem C5_witness :
    searchContent "Sales" [wbSalesReport] [] =
      .ok { text := String.intercalate "\n"
              (searchResults (pyLower "Sales") ([wbSalesReport].filter (specWbMatches "Sales"))
                (([] : List DataSource).filter (specDsMatches "Sales")))
            isError := false } ∧
    (searchResults (pyLower "Sales") ([wbSalesReport].filter (specWbMatches "Sales"))
        (([] : List DataSource).filter (specDsMatches "Sales")) =
        [noContentMsg (pyLower "Sales")] ↔
      [wbSalesReport].filter (specWbMatches "Sales") = [] ∧
        ([] : List DataSource).filter (specDsMatches "Sales") = []) :=
  C5_search_content "Sales" [wbSalesReport] [] (by decide) (by decide)
